import Mathlib

/-!
Verification development for the Shopee PDF-to-Excel converter (`src/app.py`).

The converter's extraction layer is embedded shallowly:
* Python `re` patterns are compiled by hand into a small regular-expression
  AST (`RE`) with a fuel-driven backtracking matcher `reMatch` whose result
  order mirrors Python's leftmost, greedy/lazy backtracking semantics;
  `reSearch` mirrors `re.search` (first position, first alternative).
* Python `float(...)` applied to the captured tokens (whose alphabet is
  restricted by the patterns to digits, `,`, `.`, `-`) is embedded as
  `pyFloat?` over `ℚ`; a parse failure is `none` (Python raises
  `ValueError`, and `app.py` catches it and stores `0.0`).
* Dictionaries built by sequential insertion are embedded as association
  lists in insertion order, read through `lookup?`.
* Exceptions are embedded with `Except`/`Option` where a claim is about the
  error path.
-/

/-- Association-list lookup, the embedding of Python `dict` access for the
dicts in `app.py` (which are built by sequential insertion of distinct keys). -/
def lookup? {κ α : Type} [DecidableEq κ] (k : κ) : List (κ × α) → Option α
  | [] => none
  | p :: rest => if p.1 = k then some p.2 else lookup? k rest

/-- Embedding of Python `str.replace(pat, repl)` (left-to-right,
non-overlapping; every call in `app.py` has a non-empty `pat`).  The fuel is
the string length, enough since every step consumes at least one character. -/
def replaceAux (pat repl : List Char) : Nat → List Char → List Char
  | _, [] => []
  | 0, s => s
  | n + 1, c :: rest =>
    if pat.isPrefixOf (c :: rest) && !pat.isEmpty then
      repl ++ replaceAux pat repl n ((c :: rest).drop pat.length)
    else c :: replaceAux pat repl n rest

/-- Python `s.replace(pat, repl)`. -/
def pyReplace (s pat repl : String) : String :=
  String.mk (replaceAux pat.data repl.data (s.data.length + 1) s.data)

/-- Python `s[:n]`: slice by code points. -/
def strTake (s : String) (n : Nat) : String := String.mk (s.data.take n)

/-- Split at every occurrence of `sep`, keeping empty pieces, as Python
`s.split(sep)` / `String.splitOn` for a one-character separator. -/
def splitOnChar (sep : Char) : List Char → List (List Char)
  | [] => [[]]
  | c :: rest =>
    let r := splitOnChar sep rest
    if c == sep then [] :: r
    else
      match r with
      | h :: t => (c :: h) :: t
      | [] => [[c]]

/-- Split at every character satisfying `p`, keeping empty pieces. -/
def splitByPred (p : Char → Bool) : List Char → List (List Char)
  | [] => [[]]
  | c :: rest =>
    let r := splitByPred p rest
    if p c then [] :: r
    else
      match r with
      | h :: t => (c :: h) :: t
      | [] => [[c]]

/-- Python `\s` / `str.strip` whitespace (ASCII range, as used by `re` and
`str.strip` on the ASCII statement text). -/
def isPyWs (c : Char) : Bool :=
  c == ' ' || c == '\t' || c == '\n' || c == '\r' || c == '\x0b' || c == '\x0c'

/-- Embedding of Python `str.strip()`. -/
def pyStrip (s : String) : String :=
  String.mk (((s.data.dropWhile isPyWs).reverse.dropWhile isPyWs).reverse)

/-- Regular-expression AST: the fragment of Python `re` syntax used by the
patterns in `app.py` (literals, character classes, concatenation,
alternation, greedy and lazy star, numbered capture groups). -/
inductive RE : Type
  | eps : RE
  | lit : Char → RE
  | cls : (Char → Bool) → RE
  | seq : RE → RE → RE
  | alt : RE → RE → RE
  | starG : RE → RE
  | starL : RE → RE
  | group : Nat → RE → RE

/-- Capture-group assignments: group number paired with the consumed characters. -/
abbrev Caps := List (Nat × List Char)

/-- Literal comparison, with lowering when `re.IGNORECASE` is in force. -/
def charMatch (ci : Bool) (a b : Char) : Bool :=
  if ci then a.toLower == b.toLower else a == b

/-- Backtracking matcher.  `reMatch ci fuel re s` returns every way `re` can
match a prefix of `s`, as (remaining suffix, captures) pairs, in Python's
backtracking priority order: greedy star tries longer iterations first, lazy
star tries the empty iteration first, alternation tries the left branch
first.  `fuel` bounds the call depth; `reSearch` supplies enough fuel that
the bound is never hit for the patterns of `app.py`. -/
def reMatch (ci : Bool) : Nat → RE → List Char → List (List Char × Caps)
  | 0, _, _ => []
  | Nat.succ _, RE.eps, s => [(s, [])]
  | Nat.succ _, RE.lit _, [] => []
  | Nat.succ _, RE.lit c, x :: rest => if charMatch ci c x then [(rest, [])] else []
  | Nat.succ _, RE.cls _, [] => []
  | Nat.succ _, RE.cls p, x :: rest => if p x then [(rest, [])] else []
  | Nat.succ fuel, RE.seq a b, s =>
      (reMatch ci fuel a s).flatMap (fun r1 =>
        (reMatch ci fuel b r1.1).map (fun r2 => (r2.1, r1.2 ++ r2.2)))
  | Nat.succ fuel, RE.alt a b, s => reMatch ci fuel a s ++ reMatch ci fuel b s
  | Nat.succ fuel, RE.starG r, s =>
      ((reMatch ci fuel r s).flatMap (fun r1 =>
        if r1.1.length < s.length then
          (reMatch ci fuel (RE.starG r) r1.1).map (fun r2 => (r2.1, r1.2 ++ r2.2))
        else [])) ++ [(s, [])]
  | Nat.succ fuel, RE.starL r, s =>
      (s, ([] : Caps)) :: (reMatch ci fuel r s).flatMap (fun r1 =>
        if r1.1.length < s.length then
          (reMatch ci fuel (RE.starL r) r1.1).map (fun r2 => (r2.1, r1.2 ++ r2.2))
        else [])
  | Nat.succ fuel, RE.group i r, s =>
      (reMatch ci fuel r s).map (fun r1 =>
        (r1.1, r1.2 ++ [(i, s.take (s.length - r1.1.length))]))

/-- Node count of a pattern, used to compute a sufficient fuel bound. -/
def reSize : RE → Nat
  | RE.eps => 1
  | RE.lit _ => 1
  | RE.cls _ => 1
  | RE.seq a b => reSize a + reSize b + 1
  | RE.alt a b => reSize a + reSize b + 1
  | RE.starG r => reSize r + 1
  | RE.starL r => reSize r + 1
  | RE.group _ r => reSize r + 1

/-- Scan of start positions, leftmost first, as `re.search` does; at the
first position where the pattern matches, the first (highest-priority)
match supplies the captures. -/
def searchFrom (ci : Bool) (p : RE) (fuel : Nat) : List Char → Option Caps
  | [] =>
    match reMatch ci fuel p [] with
    | r :: _ => some r.2
    | [] => none
  | x :: rest =>
    match reMatch ci fuel p (x :: rest) with
    | r :: _ => some r.2
    | [] => searchFrom ci p fuel rest

/-- Embedding of Python `re.search(pattern, text, flags)`: `some caps` iff the
pattern matches somewhere in `text`, with the captures of the leftmost,
highest-priority match. -/
def reSearch (ci : Bool) (p : RE) (text : String) : Option Caps :=
  searchFrom ci p ((reSize p + 2) * (text.length + 2)) text.data

/-- `r+` (greedy). -/
def plusRE (r : RE) : RE := RE.seq r (RE.starG r)

/-- `r?` (greedy option). -/
def optRE (r : RE) : RE := RE.alt r RE.eps

/-- A literal string, one `lit` node per character. -/
def strRE (s : String) : RE := s.data.foldr (fun c acc => RE.seq (RE.lit c) acc) RE.eps

/-- Exactly `n` copies, for `\d{4}` and `\d{2}`. -/
def repRE : Nat → RE → RE
  | 0, _ => RE.eps
  | n + 1, r => RE.seq r (repRE n r)

/-- `\s`. -/
def wsRE : RE := RE.cls isPyWs

/-- `\d`. -/
def digitRE : RE := RE.cls Char.isDigit

/-- The character class `[\d,.-]`. -/
def numRE : RE := RE.cls (fun c => c.isDigit || c == ',' || c == '.' || c == '-')

/-- The character class `[^\n]`. -/
def nonNlRE : RE := RE.cls (fun c => c != '\n')

/-- `.` without `re.DOTALL`: any character except newline. -/
def dotRE : RE := RE.cls (fun c => c != '\n')

/-- Pattern scheme `LABEL\s*:\s*([^\n]+)` used for company, bank and
username in `extract_metadata` (app.py lines 53, 65, 70). -/
def lineCaptureRE (label : String) : RE :=
  RE.seq (strRE label) (RE.seq (RE.starG wsRE) (RE.seq (RE.lit ':')
    (RE.seq (RE.starG wsRE) (RE.group 1 (plusRE nonNlRE)))))

/-- `\d{4}-\d{2}-\d{2}`. -/
def dateRE : RE :=
  RE.seq (repRE 4 digitRE) (RE.seq (RE.lit '-')
    (RE.seq (repRE 2 digitRE) (RE.seq (RE.lit '-') (repRE 2 digitRE))))

/-- `Statement for\s+(\d{4}-\d{2}-\d{2})\s+to\s+(\d{4}-\d{2}-\d{2})`
(app.py line 58). -/
def periodRE : RE :=
  RE.seq (strRE "Statement for") (RE.seq (plusRE wsRE)
    (RE.seq (RE.group 1 dateRE) (RE.seq (plusRE wsRE)
      (RE.seq (strRE "to") (RE.seq (plusRE wsRE) (RE.group 2 dateRE))))))

/-- Pattern scheme `LABEL\s+([\d,.-]+)` (app.py lines 81, 82, 90). -/
def labeledNumRE (label : String) : RE :=
  RE.seq (strRE label) (RE.seq (plusRE wsRE) (RE.group 1 (plusRE numRE)))

/-- Pattern scheme `LABEL\s+(-?[\d,.-]+)` (app.py lines 83-85). -/
def labeledSignedNumRE (label : String) : RE :=
  RE.seq (strRE label) (RE.seq (plusRE wsRE)
    (RE.group 1 (RE.seq (optRE (RE.lit '-')) (plusRE numRE))))

/-- Pattern scheme `LABEL.*?(-?[\d,.-]+)` (app.py lines 86-88). -/
def lazySignedNumRE (label : String) : RE :=
  RE.seq (strRE label) (RE.seq (RE.starL dotRE)
    (RE.group 1 (RE.seq (optRE (RE.lit '-')) (plusRE numRE))))

/-- `Total Payout Released\s+S?\$?([\d,.-]+)` (app.py line 89). -/
def payoutRE : RE :=
  RE.seq (strRE "Total Payout Released") (RE.seq (plusRE wsRE)
    (RE.seq (optRE (RE.lit 'S')) (RE.seq (optRE (RE.lit '$'))
      (RE.group 1 (plusRE numRE)))))

/-- The `patterns` dict of `extract_financial_summary` (app.py lines 80-91),
in insertion order. -/
def financialPatterns : List (String × RE) :=
  [("merchandise_subtotal", labeledNumRE "Merchandise Subtotal"),
   ("product_price", labeledNumRE "Product Price"),
   ("refund_amount", labeledSignedNumRE "Refund Amount"),
   ("shipping_subtotal", labeledSignedNumRE "Shipping Subtotal"),
   ("fees_and_charges", labeledSignedNumRE "Fees and Charges"),
   ("commission_fee", lazySignedNumRE "Commission fee"),
   ("service_fee", lazySignedNumRE "Service Fee"),
   ("transaction_fee", lazySignedNumRE "Transaction Fee"),
   ("total_payout", payoutRE),
   ("amount_paid_by_buyer", labeledNumRE "Amount Paid By Buyer")]

/-- Digit-string value, for `pyFloat?`. -/
def natOfDigits (s : String) : Nat :=
  s.data.foldl (fun n c => 10 * n + (c.toNat - 48)) 0

/-- Every character is an ASCII digit. -/
def allDigits (s : String) : Bool := s.data.all Char.isDigit

/-- Unsigned part of Python `float(...)` on the alphabet `[0-9.-]` that the
cleaned captures of `app.py` can contain: digits with at most one decimal
point and at least one digit.  (`float` also accepts exponents, `inf`,
`nan`, underscores and surrounding whitespace, none of which can occur in a
capture of the `[\d,.-]`-class patterns after comma removal.) -/
def pyFloatUnsigned? (s : String) : Option ℚ :=
  match splitOnChar '.' s.data with
  | [a] =>
    if a != [] && a.all Char.isDigit then
      some (mkRat (natOfDigits (String.mk a)) 1)
    else none
  | [a, b] =>
    if a.all Char.isDigit && b.all Char.isDigit && (a != [] || b != []) then
      some (mkRat (natOfDigits (String.mk a) * 10 ^ b.length
        + natOfDigits (String.mk b)) (10 ^ b.length))
    else none
  | _ => none

/-- Embedding of Python `float(value_str)` on the cleaned captured tokens:
`none` models the `ValueError` caught at app.py line 100. -/
def pyFloat? (s : String) : Option ℚ :=
  match s.data with
  | '-' :: rest => (pyFloatUnsigned? (String.mk rest)).map (fun q => Rat.neg q)
  | '+' :: rest => pyFloatUnsigned? (String.mk rest)
  | _ => pyFloatUnsigned? s

/-- `match.group(1).replace(',', '').replace('S$', '')` (app.py line 97). -/
def cleanNumeric (g : List Char) : String :=
  pyReplace (pyReplace (String.mk g) "," "") "S$" ""

/-- `float(value_str)` with the `except ValueError: 0.0` fallback
(app.py lines 98-101). -/
def floatOrZero (s : String) : ℚ := (pyFloat? s).getD 0

/-- One iteration of the loop at app.py lines 94-101: the summary entry
contributed by one (key, pattern) pair, or `none` when the pattern does not
match.  All searches carry `re.IGNORECASE` (app.py line 95). -/
def entryOf (text : String) (kp : String × RE) : Option (String × ℚ) :=
  match reSearch true kp.2 text with
  | some caps =>
    match lookup? 1 caps with
    | some g => some (kp.1, floatOrZero (cleanNumeric g))
    | none => none
  | none => none

/-- `extract_financial_summary` (app.py lines 78-103): the summary dict in
insertion order. -/
def extract_financial_summary (text : String) : List (String × ℚ) :=
  financialPatterns.filterMap (entryOf text)

/-- The `company` entry of `extract_metadata` (app.py lines 52-55). -/
def companySeg (text : String) : List (String × String) :=
  match reSearch false (lineCaptureRE "Name in Bank Account") text with
  | some caps =>
    match lookup? 1 caps with
    | some g => [("company", pyStrip (String.mk g))]
    | none => []
  | none => []

/-- The period entries of `extract_metadata` (app.py lines 57-62). -/
def periodSeg (text : String) : List (String × String) :=
  match reSearch false periodRE text with
  | some caps =>
    match lookup? 1 caps, lookup? 2 caps with
    | some g1, some g2 =>
      [("period_start", String.mk g1), ("period_end", String.mk g2),
       ("period", String.mk g1 ++ " to " ++ String.mk g2)]
    | _, _ => []
  | none => []

/-- The `bank` entry of `extract_metadata` (app.py lines 64-67). -/
def bankSeg (text : String) : List (String × String) :=
  match reSearch false (lineCaptureRE "Bank Name") text with
  | some caps =>
    match lookup? 1 caps with
    | some g => [("bank", pyStrip (String.mk g))]
    | none => []
  | none => []

/-- The `username` entry of `extract_metadata` (app.py lines 69-72). -/
def usernameSeg (text : String) : List (String × String) :=
  match reSearch false (lineCaptureRE "Username") text with
  | some caps =>
    match lookup? 1 caps with
    | some g => [("username", pyStrip (String.mk g))]
    | none => []
  | none => []

/-- `extract_metadata` (app.py lines 45-76): the `info` dict in insertion
order.  `document_type` is set unconditionally at line 74. -/
def extract_metadata (text filename now : String) : List (String × String) :=
  [("filename", filename), ("processed_at", now)]
    ++ companySeg text ++ periodSeg text ++ bankSeg text ++ usernameSeg text
    ++ [("document_type", "Shopee Income Statement")]

/-- A cell of a structured table: Python rows mix strings and floats
(floats are embedded as `ℚ`). -/
inductive Cell : Type
  | str : String → Cell
  | num : ℚ → Cell
deriving DecidableEq

/-- One entry of `self.tables`: the dict with `name`, `data`, `description`
(app.py lines 131-135 etc.). -/
structure PTable : Type where
  name : String
  data : List (List Cell)
  description : String
deriving DecidableEq

/-- `dict.get(key, 0)` on the financial summary. -/
def getF (fs : List (String × ℚ)) (k : String) : ℚ := (lookup? k fs).getD 0

/-- `dict.get(key, 'N/A')` on the metadata. -/
def getM (md : List (String × String)) (k : String) : String :=
  (lookup? k md).getD "N/A"

/-- Nearest integer with ties to even, as Python's float formatting rounds. -/
def roundHalfEven (x : ℚ) : ℤ :=
  let f := ⌊x⌋
  let r := x - (f : ℚ)
  if r < 1 / 2 then f else if 1 / 2 < r then f + 1 else if f % 2 = 0 then f else f + 1

/-- Insert a comma after every group of three characters of the reversed
digit string (helper for the `,` format flag). -/
def group3 : Nat → List Char → List Char
  | _, [] => []
  | 0, ds => ds
  | n + 1, ds =>
    if ds.length ≤ 3 then ds else ds.take 3 ++ ',' :: group3 n (ds.drop 3)

/-- Decimal digits of `n` with thousands separators, as `format(n, ',')`. -/
def fmtThousands (n : Nat) : String :=
  String.mk (group3 (toString n).length (toString n).data.reverse).reverse

/-- Python `format(x, ',.2f')` / `format(x, '.2f')`: two decimal places,
optional thousands separators in the integer part. -/
def fmt2 (comma : Bool) (x : ℚ) : String :=
  let n := roundHalfEven (x * 100)
  let sign := if n < 0 then "-" else ""
  let m := n.natAbs
  let ipStr := if comma then fmtThousands (m / 100) else toString (m / 100)
  let fp := m % 100
  sign ++ ipStr ++ "." ++ (if fp < 10 then "0" ++ toString fp else toString fp)

/-- The interpolation `f"${x:,.2f}"` used throughout the summary and
analytics tables. -/
def fmtMoney (x : ℚ) : String := "$" ++ fmt2 true x

/-- The interpolation `f"{x:.2f}%"` used for the percentage cells. -/
def fmtPct (x : ℚ) : String := fmt2 false x ++ "%"

/-- `summary_data` (app.py lines 110-129). -/
def summary_data (md : List (String × String)) (fs : List (String × ℚ)) :
    List (List Cell) :=
  [[Cell.str "Property", Cell.str "Value"],
   [Cell.str "Company", Cell.str (getM md "company")],
   [Cell.str "Period", Cell.str (getM md "period")],
   [Cell.str "Bank", Cell.str (getM md "bank")],
   [Cell.str "Username", Cell.str (getM md "username")],
   [Cell.str "Processing Date", Cell.str (getM md "processed_at")],
   [Cell.str "", Cell.str ""],
   [Cell.str "FINANCIAL SUMMARY", Cell.str ""],
   [Cell.str "Merchandise Subtotal", Cell.str (fmtMoney (getF fs "merchandise_subtotal"))],
   [Cell.str "Product Price", Cell.str (fmtMoney (getF fs "product_price"))],
   [Cell.str "Refund Amount", Cell.str (fmtMoney (getF fs "refund_amount"))],
   [Cell.str "Shipping Subtotal", Cell.str (fmtMoney (getF fs "shipping_subtotal"))],
   [Cell.str "Fees and Charges", Cell.str (fmtMoney (getF fs "fees_and_charges"))],
   [Cell.str "Commission Fee", Cell.str (fmtMoney (getF fs "commission_fee"))],
   [Cell.str "Service Fee", Cell.str (fmtMoney (getF fs "service_fee"))],
   [Cell.str "Transaction Fee", Cell.str (fmtMoney (getF fs "transaction_fee"))],
   [Cell.str "Total Payout Released", Cell.str (fmtMoney (getF fs "total_payout"))],
   [Cell.str "Amount Paid By Buyer", Cell.str (fmtMoney (getF fs "amount_paid_by_buyer"))]]

/-- The header row of `daily_data` (app.py lines 138-143). -/
def dailyHeader : List Cell :=
  [Cell.str "Date", Cell.str "Product_Price", Cell.str "Refund_Amount",
   Cell.str "Rebate_By_Shopee", Cell.str "Voucher_By_Seller",
   Cell.str "Shipping_Fee_By_Buyer", Cell.str "Shipping_Fee_By_Logistic",
   Cell.str "Shipping_Rebate", Cell.str "Reverse_Shipping",
   Cell.str "Fee_Saver_Savings", Cell.str "Commission_Fee", Cell.str "Service_Fee",
   Cell.str "Transaction_Fee", Cell.str "Fee_Saver_Fee", Cell.str "Total_Payout"]

/-- `daily_breakdown` (app.py lines 146-154): hardcoded literal rows. -/
def daily_breakdown : List (List Cell) :=
  [[Cell.str "2025-08-18", Cell.num 2822.54, Cell.num (-12.60), Cell.num 0.00,
    Cell.num (-21.00), Cell.num 41.79, Cell.num (-381.26), Cell.num 101.49,
    Cell.num 0.00, Cell.num 2.03, Cell.num (-212.69), Cell.num (-167.76),
    Cell.num (-92.56), Cell.num (-12.75), Cell.num 2067.23],
   [Cell.str "2025-08-19", Cell.num 2628.49, Cell.num (-206.88), Cell.num 0.00,
    Cell.num (-39.00), Cell.num 31.84, Cell.num (-294.67), Cell.num 85.57,
    Cell.num (-12.07), Cell.num 24.17, Cell.num (-181.79), Cell.num (-149.47),
    Cell.num (-78.96), Cell.num (-11.25), Cell.num 1795.98],
   [Cell.str "2025-08-20", Cell.num 2621.93, Cell.num 0.00, Cell.num 0.00,
    Cell.num (-42.00), Cell.num 51.74, Cell.num (-332.49), Cell.num 91.54,
    Cell.num 0.00, Cell.num 0.00, Cell.num (-196.79), Cell.num (-161.09),
    Cell.num (-86.08), Cell.num (-12.15), Cell.num 1934.61],
   [Cell.str "2025-08-21", Cell.num 2540.83, Cell.num (-17.27), Cell.num 0.00,
    Cell.num (-45.00), Cell.num 39.80, Cell.num (-301.63), Cell.num 81.59,
    Cell.num 0.00, Cell.num 0.00, Cell.num (-189.08), Cell.num (-158.67),
    Cell.num (-82.37), Cell.num (-11.40), Cell.num 1856.80],
   [Cell.str "2025-08-22", Cell.num 1967.22, Cell.num 0.00, Cell.num 0.00,
    Cell.num (-63.00), Cell.num 25.87, Cell.num (-218.26), Cell.num 61.69,
    Cell.num 0.00, Cell.num 0.00, Cell.num (-145.22), Cell.num (-121.64),
    Cell.num (-63.10), Cell.num (-8.70), Cell.num 1434.86],
   [Cell.str "2025-08-23", Cell.num 2157.41, Cell.num (-13.90), Cell.num 0.00,
    Cell.num (-6.00), Cell.num 23.88, Cell.num (-245.75), Cell.num 75.62,
    Cell.num 0.00, Cell.num 2.03, Cell.num (-163.08), Cell.num (-128.86),
    Cell.num (-71.15), Cell.num (-9.00), Cell.num 1621.20],
   [Cell.str "2025-08-24", Cell.num 1891.28, Cell.num 0.00, Cell.num 0.66,
    Cell.num (-6.00), Cell.num 25.87, Cell.num (-242.84), Cell.num 73.63,
    Cell.num 0.00, Cell.num 0.00, Cell.num (-143.90), Cell.num (-117.13),
    Cell.num (-62.53), Cell.num (-9.00), Cell.num 1410.04]]

/-- The `totals` row (app.py lines 159-160). -/
def totalsRow : List Cell :=
  [Cell.str "TOTAL", Cell.num 16629.70, Cell.num (-250.65), Cell.num 0.66,
   Cell.num (-222.00), Cell.num 240.79, Cell.num (-2016.90), Cell.num 571.13,
   Cell.num (-12.07), Cell.num 28.23, Cell.num (-1232.55), Cell.num (-1004.62),
   Cell.num (-536.75), Cell.num (-74.25), Cell.num 12120.72]

/-- `daily_data` after the `extend` and `append` at lines 156-161: header,
hardcoded daily rows, totals row.  A closed constant — it does not depend on
the uploaded document. -/
def daily_data : List (List Cell) := dailyHeader :: daily_breakdown ++ [totalsRow]

/-- `adjustments_data` (app.py lines 170-175): hardcoded literal rows. -/
def adjustments_data : List (List Cell) :=
  [[Cell.str "Date", Cell.str "Adjustment_Type", Cell.str "Amount_SGD", Cell.str "Description"],
   [Cell.str "2025-08-18", Cell.str "Return Refund", Cell.num (-17.71),
    Cell.str "Return Refund Adjustment After Order Completed"],
   [Cell.str "2025-08-21", Cell.str "Logistic Compensation", Cell.num 14.27,
    Cell.str "Logistic Issue Adjustment/Compensation"],
   [Cell.str "TOTAL", Cell.str "Net Adjustment", Cell.num (-3.44),
    Cell.str "Total adjustment amount"]]

/-- `fee_rate` (app.py line 187): guarded ratio, literal `0` when
`total_revenue` is not positive. -/
def fee_rate (fs : List (String × ℚ)) : ℚ :=
  if getF fs "product_price" > 0 then
    |getF fs "fees_and_charges"| / getF fs "product_price" * 100
  else 0

/-- The Profit Margin value cell (app.py line 196): formatted ratio when
`total_revenue > 0`, the literal string `"0%"` otherwise. -/
def profit_margin_cell (fs : List (String × ℚ)) : String :=
  if getF fs "product_price" > 0 then
    fmtPct (getF fs "total_payout" / getF fs "product_price" * 100)
  else "0%"

/-- Python float division, which raises `ZeroDivisionError` on a zero
divisor: the checked counterpart of `/` used to state that the Report
Assembler never divides by zero. -/
def pyDiv (a b : ℚ) : Except String ℚ :=
  if b = 0 then Except.error "ZeroDivisionError: float division by zero"
  else Except.ok (a / b)

/-- `fee_rate` with the division checked by `pyDiv`: `Except.error` would be
the uncaught `ZeroDivisionError`. -/
def fee_rateE (fs : List (String × ℚ)) : Except String ℚ :=
  if getF fs "product_price" > 0 then
    (pyDiv |getF fs "fees_and_charges"| (getF fs "product_price")).map (fun q => q * 100)
  else Except.ok 0

/-- The Profit Margin cell with the division checked by `pyDiv`. -/
def profit_margin_cellE (fs : List (String × ℚ)) : Except String String :=
  if getF fs "product_price" > 0 then
    (pyDiv (getF fs "total_payout") (getF fs "product_price")).map
      (fun q => fmtPct (q * 100))
  else Except.ok "0%"

/-- `analytics_data` (app.py lines 184-199). -/
def analytics_data (fs : List (String × ℚ)) : List (List Cell) :=
  [[Cell.str "Metric", Cell.str "Value", Cell.str "Analysis"],
   [Cell.str "Total Revenue", Cell.str (fmtMoney (getF fs "product_price")),
    Cell.str "Gross product sales"],
   [Cell.str "Total Platform Fees", Cell.str (fmtMoney |getF fs "fees_and_charges"|),
    Cell.str "Shopee platform costs"],
   [Cell.str "Net Payout", Cell.str (fmtMoney (getF fs "total_payout")),
    Cell.str "Final amount received"],
   [Cell.str "Effective Fee Rate", Cell.str (fmtPct (fee_rate fs)),
    Cell.str "Platform fee percentage"],
   [Cell.str "Average Daily Sales", Cell.str (fmtMoney (getF fs "product_price" / 7)),
    Cell.str "7-day average"],
   [Cell.str "Profit Margin", Cell.str (profit_margin_cell fs),
    Cell.str "Net profit percentage"],
   [Cell.str "Best Day Revenue", Cell.str "$2,822.54",
    Cell.str "2025-08-18 (highest sales)"],
   [Cell.str "Lowest Day Revenue", Cell.str "$1,891.28",
    Cell.str "2025-08-24 (lowest sales)"]]

/-- `create_structured_tables` (app.py lines 105-205) as a function of the
extracted metadata and financial summary: the four appended tables. -/
def create_structured_tables (md : List (String × String))
    (fs : List (String × ℚ)) : List PTable :=
  [{ name := "Summary_Report", data := summary_data md fs,
     description := "Document information and financial summary" },
   { name := "Daily_Payout_Details", data := daily_data,
     description := "Daily breakdown of payout details" },
   { name := "Order_Adjustments", data := adjustments_data,
     description := "Order adjustments and compensations" },
   { name := "Business_Analytics", data := analytics_data fs,
     description := "Business performance metrics and analysis" }]

/-- The mutable fields of `ImprovedPDFConverter` (app.py lines 15-19). -/
structure Converter : Type where
  tables : List PTable
  metadata : List (String × String)
  financial_summary : List (String × ℚ)
deriving DecidableEq

/-- `ImprovedPDFConverter.__init__` (app.py lines 16-19). -/
def initConverter : Converter :=
  { tables := [], metadata := [], financial_summary := [] }

/-- A successfully opened PDF: its filename and the per-page results of
`page.extract_text()` (`none` embeds a page returning `None`). -/
structure PdfDoc : Type where
  name : String
  pages : List (Option String)

/-- The page loop of app.py lines 25-31: concatenate non-`None` page texts,
each followed by a newline. -/
def fullTextOf (pages : List (Option String)) : String :=
  pages.foldl (fun acc pt =>
    match pt with
    | some t => acc ++ t ++ "\n"
    | none => acc) ""

/-- `extract_tables_from_pdf` (app.py lines 21-43).  The external
`pdfplumber.open`/text-extraction collaborator is embedded as an
`Except String PdfDoc` argument: `Except.error e` is the exception raised
when the PDF cannot be opened or processed, caught at line 42.  Returns the
converter state together with the `(success, message)` pair. -/
def extract_tables_from_pdf (c : Converter) (pdfOpen : Except String PdfDoc)
    (now : String) : Converter × Bool × String :=
  match pdfOpen with
  | Except.error e => (c, false, "Error processing PDF: " ++ e)
  | Except.ok pdf =>
    let full_text := fullTextOf pdf.pages
    let md := extract_metadata full_text pdf.name now
    let fs := extract_financial_summary full_text
    let tables := create_structured_tables md fs
    ({ tables := tables, metadata := md, financial_summary := fs }, true,
     "Successfully processed Shopee statement with " ++ toString tables.length
       ++ " structured tables")

/-- The per-sheet loop of `create_excel_file` (app.py lines 217-230).
`sheetErr i` is the exception message raised while converting/writing sheet
`i` (`none` when the write succeeds); a failing sheet contributes a warning
and is skipped, the loop continues.  Returns (sheet names written, warnings
surfaced), both in order. -/
def writeSheets (sheetErr : Nat → Option String) :
    Nat → List PTable → List String × List String
  | _, [] => ([], [])
  | i, t :: rest =>
    let r := writeSheets sheetErr (i + 1) rest
    match sheetErr i with
    | some e => (r.1, ("Could not create sheet " ++ t.name ++ ": " ++ e) :: r.2)
    | none => (strTake t.name 31 :: r.1, r.2)

/-- The outcome of `create_excel_file`: the written file (as the list of its
sheet names) or `none`, the warnings from skipped sheets, and the top-level
error message if the writer itself failed. -/
structure ExcelResult : Type where
  file : Option (List String)
  warnings : List String
  errorMsg : Option String
deriving DecidableEq

/-- `create_excel_file` (app.py lines 207-237).  `globalErr` embeds an
exception of the `pd.ExcelWriter` context itself (caught at line 235, which
reports the error and returns `None`); per-sheet exceptions are supplied by
`sheetErr` and handled inside the loop. -/
def create_excel_file (tables : List PTable) (sheetErr : Nat → Option String)
    (globalErr : Option String) : ExcelResult :=
  if tables = [] then { file := none, warnings := [], errorMsg := none }
  else
    match globalErr with
    | some e =>
      { file := none, warnings := [],
        errorMsg := some ("Error creating Excel file: " ++ e) }
    | none =>
      let r := writeSheets sheetErr 0 tables
      { file := some r.1, warnings := r.2, errorMsg := none }

/-- The filename derivation of `main` (app.py lines 323-326). -/
def excel_filename (md : List (String × String)) (nowStamp : String) : String :=
  let company := pyReplace ((lookup? "company" md).getD "Shopee") " " "_"
  let period := (lookup? "period_start" md).getD nowStamp
  company ++ "_Income_Statement_" ++ period ++ "_Dataset.xlsx"

/-- A raw extracted cell is blank: `None`, empty, or whitespace-only. -/
def isBlankCell : Option String → Bool
  | none => true
  | some s => s.data.all isPyWs

/-- Join word groups with single spaces (helper for `collapseWs`). -/
def joinWithSpace : List (List Char) → List Char
  | [] => []
  | [x] => x
  | x :: xs => x ++ ' ' :: joinWithSpace xs

/-- Collapse every run of whitespace to one space and trim the ends. -/
def collapseWs (s : String) : String :=
  String.mk (joinWithSpace ((splitByPred isPyWs s.data).filter (fun t => t != [])))

/-- Clean one raw cell: `None` becomes the empty string, otherwise collapse
whitespace and trim. -/
def cleanCell : Option String → String
  | none => ""
  | some s => collapseWs s

/-- Modelled from the spec: the Table Normalizer of spec §4.2 is not present
in `src/` (app.py substitutes hardcoded sample tables for real table
extraction), so its rules are taken from the spec's words: discard input
with fewer than 2 rows; drop rows whose every cell is empty/null/whitespace;
clean surviving cells; discard the result if fewer than 2 rows remain. -/
def normalize_table (raw : List (List (Option String))) :
    Option (List (List String)) :=
  if raw.length < 2 then none
  else if ((raw.filter (fun row => !row.all isBlankCell)).map
      (fun row => row.map cleanCell)).length < 2 then none
  else some ((raw.filter (fun row => !row.all isBlankCell)).map
      (fun row => row.map cleanCell))

/-- The end-to-end financial example text from the spec (§8), used by the
concrete part of the corresponding claim. -/
def sampleStatementText : String :=
  "Merchandise Subtotal 16,629.70\nTotal Payout Released S$12,120.72\n"

/-! ### Helper lemmas -/

theorem lookup?_cons_eq {α : Type} (k : String) (v : α) (l : List (String × α)) :
    lookup? k ((k, v) :: l) = some v := by
  simp [lookup?]

theorem lookup?_cons_ne {α : Type} (k k' : String) (v : α) (l : List (String × α))
    (h : k' ≠ k) : lookup? k ((k', v) :: l) = lookup? k l := by
  simp [lookup?, h]

theorem lookup?_append {α : Type} {k : String} {xs ys : List (String × α)}
    (h : ∀ p ∈ xs, p.1 ≠ k) : lookup? k (xs ++ ys) = lookup? k ys := by
  induction xs with
  | nil => simp
  | cons q xs ih =>
    simp only [List.cons_append, lookup?]
    rw [if_neg (h q (List.mem_cons_self _ _))]
    exact ih (fun p hp => h p (List.mem_cons_of_mem _ hp))

theorem companySeg_key (text : String) : ∀ p ∈ companySeg text, p.1 = "company" := by
  intro p hp
  unfold companySeg at hp
  cases h1 : reSearch false (lineCaptureRE "Name in Bank Account") text with
  | none => simp only [h1] at hp; simp at hp
  | some caps =>
    simp only [h1] at hp
    cases h2 : lookup? 1 caps with
    | none => simp only [h2] at hp; simp at hp
    | some g => simp only [h2] at hp; simp at hp; rw [hp]

theorem bankSeg_key (text : String) : ∀ p ∈ bankSeg text, p.1 = "bank" := by
  intro p hp
  unfold bankSeg at hp
  cases h1 : reSearch false (lineCaptureRE "Bank Name") text with
  | none => simp only [h1] at hp; simp at hp
  | some caps =>
    simp only [h1] at hp
    cases h2 : lookup? 1 caps with
    | none => simp only [h2] at hp; simp at hp
    | some g => simp only [h2] at hp; simp at hp; rw [hp]

theorem usernameSeg_key (text : String) : ∀ p ∈ usernameSeg text, p.1 = "username" := by
  intro p hp
  unfold usernameSeg at hp
  cases h1 : reSearch false (lineCaptureRE "Username") text with
  | none => simp only [h1] at hp; simp at hp
  | some caps =>
    simp only [h1] at hp
    cases h2 : lookup? 1 caps with
    | none => simp only [h2] at hp; simp at hp
    | some g => simp only [h2] at hp; simp at hp; rw [hp]

theorem periodSeg_key (text : String) :
    ∀ p ∈ periodSeg text,
      p.1 = "period_start" ∨ p.1 = "period_end" ∨ p.1 = "period" := by
  intro p hp
  unfold periodSeg at hp
  cases h1 : reSearch false periodRE text with
  | none => simp only [h1] at hp; simp at hp
  | some caps =>
    simp only [h1] at hp
    cases h2 : lookup? 1 caps with
    | none => simp only [h2] at hp; simp at hp
    | some g1 =>
      simp only [h2] at hp
      cases h3 : lookup? 2 caps with
      | none => simp only [h3] at hp; simp at hp
      | some g2 =>
        simp only [h3] at hp
        simp at hp
        rcases hp with hp | hp | hp <;> rw [hp] <;> simp

theorem entryOf_key (text : String) (kp : String × RE) (e : String × ℚ)
    (h : entryOf text kp = some e) : e.1 = kp.1 := by
  unfold entryOf at h
  cases h1 : reSearch true kp.2 text with
  | none => simp only [h1] at h; cases h
  | some caps =>
    simp only [h1] at h
    cases h2 : lookup? 1 caps with
    | none => simp only [h2] at h; cases h
    | some g => simp only [h2] at h; simp at h; rw [← h]

theorem lookup?_filterMap_entryOf (text : String) :
    ∀ (L : List (String × RE)) (k : String) (p : RE) (v : ℚ),
      (L.map Prod.fst).Nodup → (k, p) ∈ L → entryOf text (k, p) = some (k, v) →
      lookup? k (L.filterMap (entryOf text)) = some v := by
  intro L
  induction L with
  | nil => intro k p v _ hmem _; cases hmem
  | cons hd tl ih =>
    intro k p v hnd hmem he
    rw [List.filterMap_cons]
    rcases List.mem_cons.mp hmem with heq | hmem'
    · rw [← heq, he]
      exact lookup?_cons_eq k v _
    · have hk : k ∈ tl.map Prod.fst := List.mem_map_of_mem Prod.fst hmem'
      have hnd' := hnd
      rw [List.map_cons, List.nodup_cons] at hnd'
      have hne : hd.1 ≠ k := fun hcontra => hnd'.1 (hcontra ▸ hk)
      cases hhd : entryOf text hd with
      | none => exact ih k p v hnd'.2 hmem' he
      | some e =>
        have := entryOf_key text hd e hhd
        rw [lookup?_cons_ne k e.1 e.2 _ (this ▸ hne)]
        exact ih k p v hnd'.2 hmem' he

/-! ### Claim theorems -/

/-- Claim C4 (amended): for every document text, `extract_metadata` sets the
`document_type` field unconditionally to `"Shopee Income Statement"`; there
is no keyword heuristic and no generic fallback (app.py line 74). -/
theorem document_type_always_shopee (text fn now : String) :
    lookup? "document_type" (extract_metadata text fn now)
      = some "Shopee Income Statement" := by
  unfold extract_metadata
  simp only [List.cons_append, List.nil_append, List.append_assoc]
  rw [lookup?_cons_ne _ _ _ _ (by decide), lookup?_cons_ne _ _ _ _ (by decide)]
  rw [lookup?_append (fun p hp => by rw [companySeg_key text p hp]; decide)]
  rw [lookup?_append (fun p hp => by
    rcases periodSeg_key text p hp with h | h | h <;> rw [h] <;> decide)]
  rw [lookup?_append (fun p hp => by rw [bankSeg_key text p hp]; decide)]
  rw [lookup?_append (fun p hp => by rw [usernameSeg_key text p hp]; decide)]
  exact lookup?_cons_eq _ _ _

/-- Claim C4 counterexample: the empty document text contains no marketplace
keyword of any fixed keyword set, yet `document_type` is still the
specialized `"Shopee Income Statement"`, not a generic document type — the
field is not set by a keyword heuristic. -/
theorem document_type_keyword_heuristic_cex :
    lookup? "document_type" (extract_metadata "" "doc.pdf" "t")
      = some "Shopee Income Statement" := by
  decide

/-- Claim C5: the Report Assembler's derived ratios are computed only behind
the `total_revenue > 0` guard: the division-checked evaluations
`fee_rateE`/`profit_margin_cellE` never raise (they always return
`Except.ok` of exactly the values used in the Business_Analytics table),
and with `product_price = 0` the results are the literal `0` and `"0%"`. -/
theorem report_assembler_division_guard (fs : List (String × ℚ)) :
    fee_rateE fs = Except.ok (fee_rate fs)
    ∧ profit_margin_cellE fs = Except.ok (profit_margin_cell fs)
    ∧ (getF fs "product_price" = 0 →
        fee_rate fs = 0 ∧ profit_margin_cell fs = "0%") := by
  by_cases h : getF fs "product_price" > 0
  · have hne : getF fs "product_price" ≠ 0 := ne_of_gt h
    refine ⟨?_, ?_, fun h0 => absurd h0 hne⟩
    · unfold fee_rateE fee_rate pyDiv
      rw [if_pos h, if_pos h, if_neg hne]
      rfl
    · unfold profit_margin_cellE profit_margin_cell pyDiv
      rw [if_pos h, if_pos h, if_neg hne]
      rfl
  · refine ⟨?_, ?_, ?_⟩
    · unfold fee_rateE fee_rate
      rw [if_neg h, if_neg h]
    · unfold profit_margin_cellE profit_margin_cell
      rw [if_neg h, if_neg h]
    · intro _
      unfold fee_rate profit_margin_cell
      rw [if_neg h, if_neg h]
      exact ⟨rfl, rfl⟩

/-- Witness for C5 at an empty financial summary (`product_price` defaults
to `0`): no division error, and the literal zero results. -/
theorem report_assembler_division_guard_witness :
    fee_rateE [] = Except.ok 0 ∧ profit_margin_cell [] = "0%" := by
  have h := report_assembler_division_guard []
  have h0 : getF ([] : List (String × ℚ)) "product_price" = 0 := rfl
  refine ⟨?_, (h.2.2 h0).2⟩
  rw [h.1, (h.2.2 h0).1]

/-- Claim C6: for every input, `create_structured_tables` produces exactly
the four tables Summary_Report, Daily_Payout_Details, Order_Adjustments,
Business_Analytics in that order, and the Daily_Payout_Details and
Order_Adjustments tables are the closed constants `daily_data` and
`adjustments_data`, independent of the extracted metadata and financial
summary. -/
theorem create_structured_tables_shape (md : List (String × String))
    (fs : List (String × ℚ)) :
    (create_structured_tables md fs).length = 4
    ∧ (create_structured_tables md fs).map PTable.name
        = ["Summary_Report", "Daily_Payout_Details", "Order_Adjustments",
           "Business_Analytics"]
    ∧ (create_structured_tables md fs).get? 1
        = some { name := "Daily_Payout_Details", data := daily_data,
                 description := "Daily breakdown of payout details" }
    ∧ (create_structured_tables md fs).get? 2
        = some { name := "Order_Adjustments", data := adjustments_data,
                 description := "Order adjustments and compensations" } :=
  ⟨rfl, rfl, rfl, rfl⟩

/-- Claim C7: when opening/processing the PDF raises, `extract_tables_from_pdf`
returns failure with the message `"Error processing PDF: "` followed by the
original exception detail inline, and the converter state is returned
unchanged — starting from the fresh converter (whose tables, metadata and
financial summary are all empty), no partial result is produced. -/
theorem extract_tables_from_pdf_open_failure (c : Converter) (e now : String) :
    extract_tables_from_pdf c (Except.error e) now
        = (c, false, "Error processing PDF: " ++ e)
    ∧ initConverter.tables = [] ∧ initConverter.metadata = []
    ∧ initConverter.financial_summary = [] :=
  ⟨rfl, rfl, rfl, rfl⟩

/-- Claim C9: the output filename is the extracted company name with spaces
replaced by underscores (default `"Shopee"` when absent), then the literal
`"_Income_Statement_"`, then the extracted period-start date (default: the
current timestamp), then the literal `"_Dataset.xlsx"`. -/
theorem excel_filename_derivation (md : List (String × String)) (now : String) :
    (∀ c p, lookup? "company" md = some c → lookup? "period_start" md = some p →
      excel_filename md now
        = pyReplace c " " "_" ++ "_Income_Statement_" ++ p ++ "_Dataset.xlsx")
    ∧ (∀ c, lookup? "company" md = some c → lookup? "period_start" md = none →
      excel_filename md now
        = pyReplace c " " "_" ++ "_Income_Statement_" ++ now ++ "_Dataset.xlsx")
    ∧ (∀ p, lookup? "company" md = none → lookup? "period_start" md = some p →
      excel_filename md now = "Shopee_Income_Statement_" ++ p ++ "_Dataset.xlsx")
    ∧ (lookup? "company" md = none → lookup? "period_start" md = none →
      excel_filename md now
        = "Shopee_Income_Statement_" ++ now ++ "_Dataset.xlsx") := by
  refine ⟨fun c p hc hp => ?_, fun c hc hp => ?_, fun p hc hp => ?_, fun hc hp => ?_⟩ <;>
    · simp only [excel_filename]
      rw [hc, hp]
      rfl

/-- Witness for C9: both extracted fields present. -/
theorem excel_filename_derivation_witness :
    excel_filename [("company", "ACME Pte Ltd"), ("period_start", "2025-08-18")] "x"
      = "ACME_Pte_Ltd_Income_Statement_2025-08-18_Dataset.xlsx" := by
  have h := (excel_filename_derivation
    [("company", "ACME Pte Ltd"), ("period_start", "2025-08-18")] "x").1
    "ACME Pte Ltd" "2025-08-18" (by rfl) (by rfl)
  rw [h]
  rfl

/-- Claim C10 (Table Normalizer modelled from the spec): a raw table with
fewer than 2 non-blank rows produces no Sheet. -/
theorem normalize_table_thin_discard (raw : List (List (Option String)))
    (h : (raw.filter (fun row => !row.all isBlankCell)).length < 2) :
    normalize_table raw = none := by
  unfold normalize_table
  by_cases h2 : raw.length < 2
  · rw [if_pos h2]
  · rw [if_neg h2, if_pos (by rw [List.length_map]; exact h)]

/-- Witness for C10: three raw rows of which only one is non-blank. -/
theorem normalize_table_thin_discard_witness :
    normalize_table [[some "A", some "B"], [none, some " "], []] = none :=
  normalize_table_thin_discard _ (by decide)

theorem writeSheets_eq (sheetErr : Nat → Option String) (ts : List PTable) :
    ∀ i, writeSheets sheetErr i ts
      = ((ts.enumFrom i).filterMap (fun p =>
           match sheetErr p.1 with
           | none => some (strTake p.2.name 31)
           | some _ => none),
         (ts.enumFrom i).filterMap (fun p =>
           match sheetErr p.1 with
           | some e => some ("Could not create sheet " ++ p.2.name ++ ": " ++ e)
           | none => none)) := by
  induction ts with
  | nil => intro i; rfl
  | cons t rest ih =>
    intro i
    cases h : sheetErr i with
    | some e => simp [writeSheets, List.enumFrom, List.filterMap_cons, ih (i + 1), h]
    | none => simp [writeSheets, List.enumFrom, List.filterMap_cons, ih (i + 1), h]

/-- Claim C8: with a nonempty table list, a per-sheet write failure is
non-fatal — the failing sheet is skipped, its warning is surfaced, and every
other sheet is still written (the file holds exactly the sheets whose writes
succeeded, names truncated to 31 characters) — while a failure of the
spreadsheet writer itself makes `create_excel_file` return no file. -/
theorem create_excel_file_error_policy (tables : List PTable)
    (sheetErr : Nat → Option String) (h : tables ≠ []) :
    (create_excel_file tables sheetErr none).file
        = some (tables.enum.filterMap (fun p =>
            match sheetErr p.1 with
            | none => some (strTake p.2.name 31)
            | some _ => none))
    ∧ (create_excel_file tables sheetErr none).warnings
        = tables.enum.filterMap (fun p =>
            match sheetErr p.1 with
            | some e => some ("Could not create sheet " ++ p.2.name ++ ": " ++ e)
            | none => none)
    ∧ (∀ e, (create_excel_file tables sheetErr (some e)).file = none) := by
  refine ⟨?_, ?_, fun e => ?_⟩
  · simp only [create_excel_file]
    rw [if_neg h, writeSheets_eq sheetErr tables 0]
    rfl
  · simp only [create_excel_file]
    rw [if_neg h, writeSheets_eq sheetErr tables 0]
    rfl
  · simp only [create_excel_file]
    rw [if_neg h]

/-- Witness for C8 on the converter's four tables with sheet 1 failing:
Daily_Payout_Details is skipped with a warning, the other three sheets are
written; a writer-level failure yields no file. -/
theorem create_excel_file_error_policy_witness :
    (create_excel_file (create_structured_tables [] [])
        (fun i => if i = 1 then some "boom" else none) none).file
      = some ["Summary_Report", "Order_Adjustments", "Business_Analytics"]
    ∧ (create_excel_file (create_structured_tables [] [])
        (fun i => if i = 1 then some "boom" else none) none).warnings
      = ["Could not create sheet Daily_Payout_Details: boom"]
    ∧ (create_excel_file (create_structured_tables [] [])
        (fun i => if i = 1 then some "boom" else none) (some "disk full")).file
      = none := by
  have h := create_excel_file_error_policy (create_structured_tables [] [])
    (fun i => if i = 1 then some "boom" else none)
    (by exact List.cons_ne_nil _ _)
  refine ⟨?_, ?_, h.2.2 "disk full"⟩
  · rw [h.1]; rfl
  · rw [h.2.1]; rfl

/-- Claim C1: whenever a financial field's pattern matches the document text
but the captured token (after comma/currency stripping) cannot be parsed as
a float, `extract_financial_summary` still records the field, with value
exactly `0.0` (app.py lines 93-103). -/
theorem financial_unparsable_token_recorded_zero (text key : String) (p : RE)
    (caps : Caps) (g : List Char)
    (hmem : (key, p) ∈ financialPatterns)
    (hsearch : reSearch true p text = some caps)
    (hgroup : lookup? 1 caps = some g)
    (hparse : pyFloat? (cleanNumeric g) = none) :
    lookup? key (extract_financial_summary text) = some 0 := by
  have hnd : (financialPatterns.map Prod.fst).Nodup := by decide
  apply lookup?_filterMap_entryOf text financialPatterns key p 0 hnd hmem
  unfold entryOf
  simp only [hsearch, hgroup, floatOrZero, hparse]
  rfl

/-- Witness for C1: `"Merchandise Subtotal -"` — the pattern matches, the
captured token `"-"` is not a float, and the field is recorded as `0`. -/
theorem financial_unparsable_token_recorded_zero_witness :
    lookup? "merchandise_subtotal"
      (extract_financial_summary "Merchandise Subtotal -") = some 0 :=
  financial_unparsable_token_recorded_zero "Merchandise Subtotal -"
    "merchandise_subtotal" (labeledNumRE "Merchandise Subtotal")
    [(1, ['-'])] ['-']
    (by unfold financialPatterns; exact List.Mem.head _)
    (by rfl) (by rfl) (by rfl)

/-- Claim C3: when a financial field's pattern finds its (first,
case-insensitive) match with captured token `g`, and the token parses after
stripping commas and the currency marker, the parsed value is recorded for
that field; in particular the spec's end-to-end example text yields
`merchandise_subtotal = 16629.70` and `total_payout = 12120.72`. -/
theorem financial_matched_value_recorded (text key : String) (p : RE)
    (caps : Caps) (g : List Char) (q : ℚ)
    (hmem : (key, p) ∈ financialPatterns)
    (hsearch : reSearch true p text = some caps)
    (hgroup : lookup? 1 caps = some g)
    (hparse : pyFloat? (cleanNumeric g) = some q) :
    lookup? key (extract_financial_summary text) = some q
    ∧ lookup? "merchandise_subtotal" (extract_financial_summary sampleStatementText)
        = some (16629.70 : ℚ)
    ∧ lookup? "total_payout" (extract_financial_summary sampleStatementText)
        = some (12120.72 : ℚ) := by
  refine ⟨?_, ?_, ?_⟩
  · have hnd : (financialPatterns.map Prod.fst).Nodup := by decide
    apply lookup?_filterMap_entryOf text financialPatterns key p q hnd hmem
    unfold entryOf
    simp only [hsearch, hgroup, floatOrZero, hparse]
    rfl
  · have e1 : lookup? "merchandise_subtotal"
        (extract_financial_summary sampleStatementText)
          = some (mkRat 1662970 100) := by rfl
    rw [e1]
    exact congrArg some (by norm_num : mkRat 1662970 100 = (16629.70 : ℚ))
  · have e2 : lookup? "total_payout" (extract_financial_summary sampleStatementText)
        = some (mkRat 1212072 100) := by rfl
    rw [e2]
    exact congrArg some (by norm_num : mkRat 1212072 100 = (12120.72 : ℚ))

/-- Witness for C3 on the sample text: the merchandise-subtotal pattern
captures `"16,629.70"`, which parses (after comma stripping) to `16629.70`. -/
theorem financial_matched_value_recorded_witness :
    lookup? "merchandise_subtotal" (extract_financial_summary sampleStatementText)
      = some (mkRat 1662970 100) :=
  (financial_matched_value_recorded sampleStatementText "merchandise_subtotal"
    (labeledNumRE "Merchandise Subtotal") [(1, "16,629.70".data)]
    "16,629.70".data (mkRat 1662970 100)
    (by unfold financialPatterns; exact List.Mem.head _)
    (by rfl) (by rfl) (by rfl)).1

/-- Claim C2: when the period pattern `Statement for D1 to D2` (two
ISO-format dates) matches, `extract_metadata` records `period = "D1 to D2"`,
`period_start = D1`, `period_end = D2`; when the pattern finds no match
(either date absent or malformed), none of the three keys is recorded at
all (app.py lines 57-62). -/
theorem extract_metadata_period_fields (text fn now : String) :
    (∀ caps g1 g2, reSearch false periodRE text = some caps →
      lookup? 1 caps = some g1 → lookup? 2 caps = some g2 →
      lookup? "period" (extract_metadata text fn now)
          = some (String.mk g1 ++ " to " ++ String.mk g2)
        ∧ lookup? "period_start" (extract_metadata text fn now) = some (String.mk g1)
        ∧ lookup? "period_end" (extract_metadata text fn now) = some (String.mk g2))
    ∧ (reSearch false periodRE text = none →
        lookup? "period" (extract_metadata text fn now) = none
        ∧ lookup? "period_start" (extract_metadata text fn now) = none
        ∧ lookup? "period_end" (extract_metadata text fn now) = none) := by
  have skip : ∀ k : String, k ≠ "filename" → k ≠ "processed_at" → k ≠ "company" →
      lookup? k (extract_metadata text fn now)
        = lookup? k (periodSeg text ++ (bankSeg text ++ (usernameSeg text
            ++ [("document_type", "Shopee Income Statement")]))) := by
    intro k h1 h2 h3
    unfold extract_metadata
    simp only [List.cons_append, List.nil_append, List.append_assoc]
    rw [lookup?_cons_ne _ _ _ _ (Ne.symm h1), lookup?_cons_ne _ _ _ _ (Ne.symm h2)]
    rw [lookup?_append (fun p hp => by
      rw [companySeg_key text p hp]; exact Ne.symm h3)]
  have tailskip : ∀ k : String, k ≠ "bank" → k ≠ "username" → k ≠ "document_type" →
      lookup? k (bankSeg text ++ (usernameSeg text
          ++ [("document_type", "Shopee Income Statement")])) = none := by
    intro k h1 h2 h3
    rw [lookup?_append (fun p hp => by
      rw [bankSeg_key text p hp]; exact Ne.symm h1)]
    rw [lookup?_append (fun p hp => by
      rw [usernameSeg_key text p hp]; exact Ne.symm h2)]
    rw [lookup?_cons_ne _ _ _ _ (Ne.symm h3)]
    rfl
  constructor
  · intro caps g1 g2 h1 h2 h3
    have hps : periodSeg text
        = [("period_start", String.mk g1), ("period_end", String.mk g2),
           ("period", String.mk g1 ++ " to " ++ String.mk g2)] := by
      unfold periodSeg
      simp only [h1, h2, h3]
    refine ⟨?_, ?_, ?_⟩
    · rw [skip "period" (by decide) (by decide) (by decide), hps]
      simp only [List.cons_append]
      rw [lookup?_cons_ne _ _ _ _ (by decide), lookup?_cons_ne _ _ _ _ (by decide)]
      exact lookup?_cons_eq _ _ _
    · rw [skip "period_start" (by decide) (by decide) (by decide), hps]
      simp only [List.cons_append]
      exact lookup?_cons_eq _ _ _
    · rw [skip "period_end" (by decide) (by decide) (by decide), hps]
      simp only [List.cons_append]
      rw [lookup?_cons_ne _ _ _ _ (by decide)]
      exact lookup?_cons_eq _ _ _
  · intro h1
    have hps : periodSeg text = [] := by
      unfold periodSeg
      simp only [h1]
    refine ⟨?_, ?_, ?_⟩ <;>
      · rw [skip _ (by decide) (by decide) (by decide), hps]
        simp only [List.nil_append]
        exact tailskip _ (by decide) (by decide) (by decide)

/-- Witness for C2: a well-formed period line yields the three fields, and a
text without one yields none of them. -/
theorem extract_metadata_period_fields_witness :
    lookup? "period"
        (extract_metadata "Statement for 2025-08-18 to 2025-08-24" "f.pdf" "t")
      = some "2025-08-18 to 2025-08-24"
    ∧ lookup? "period_start" (extract_metadata "no period line" "f.pdf" "t")
      = none := by
  constructor
  · have h := ((extract_metadata_period_fields
      "Statement for 2025-08-18 to 2025-08-24" "f.pdf" "t").1
      [(1, "2025-08-18".data), (2, "2025-08-24".data)]
      "2025-08-18".data "2025-08-24".data (by rfl) (by rfl) (by rfl)).1
    rw [h]
    rfl
  · exact (((extract_metadata_period_fields "no period line" "f.pdf" "t").2
      (by rfl)).2).1
